import Mathlib

/-!
Verification of the video-processing worker's job orchestrator and queue
consumer, as implemented in `src/handlers/videoProcessingHandler.ts` and
`src/consumers/VideoProcessingConsumer.ts`.

The orchestrator `handleVideoUploadEvent` is embedded as a pure function
from a job payload and an environment (the observable behaviour of the
external collaborators: ledger, object storage, transcoding engine,
result publisher, filesystem, and the scheduler deciding which rejection
of a promise group surfaces first) to a verdict and a trace of the
side-effecting calls the orchestrator issued.
-/

namespace VideoProcessing

/-- The message payload as seen by the handler.  The consumer's
`VideoUploadPayload` interface declares `videoId`, `s3Key`,
`originalFilename`, `mimeType`; the handler destructures `videoId`,
`s3Key`, `originalname`, `mimetype` from the same object
(`videoProcessingHandler.ts` line 186).  All relevant property names are
carried so that the name mismatch is representable; `none` means the
property is absent (JS `undefined`). -/
structure Payload where
  videoId : Option String
  s3Key : Option String
  originalFilename : Option String
  mimeType : Option String
  originalname : Option String
  mimetype : Option String
deriving Repr, DecidableEq

/-- JS truthiness of an optional string: `undefined` and `""` are falsy. -/
def truthy : Option String → Bool
  | none => false
  | some s => !(s == "")

/-- `S3_PROCESSED_PREFIX` from `src/config/constants.ts`. -/
def s3ProcessedBase : String := "processed/"

/-- `S3_THUMBNAIL_PREFIX` from `src/config/constants.ts`. -/
def s3ThumbnailBase : String := "thumbnails/"

/-- Destination key for a resolution variant,
`` `${S3_PROCESSED_PREFIX}${videoId}/${videoId}_${height}p.mp4` ``
(handler line 311).  `height` ranges over `ENV.PROCESSING_RESOLUTIONS`. -/
def transcodeKey (videoId res : String) : String :=
  s3ProcessedBase ++ videoId ++ "/" ++ videoId ++ "_" ++ res ++ "p.mp4"

/-- Destination key for the thumbnail,
`` `${S3_THUMBNAIL_PREFIX}${videoId}/${videoId}_thumbnail.jpg` ``
(handler line 324). -/
def thumbnailKey (videoId : String) : String :=
  s3ThumbnailBase ++ videoId ++ "/" ++ videoId ++ "_thumbnail.jpg"

/-- One attempted `db.update(videos).set(...)` call.  `processedFiles`
is `none` when the update object carries no `processedFiles` field (the
`PROCESSING` write, line 257), `some m` when it does (the final write,
line 423).  `ok` records whether the write succeeded or threw. -/
structure LedgerWrite where
  status : String
  processedFiles : Option (List (String × String))
  hasProcessedAt : Bool
  ok : Bool
deriving Repr, DecidableEq

/-- An event handed to `videoEventProducer.publishVideoEvent`.  The
producer itself never throws (it catches internally and returns a
boolean, `videoEvent.producer.ts`), so a publish call never alters the
handler's control flow. -/
inductive Event where
  | completed (videoId : String) (outputs : List (String × String))
  | failed (videoId : String) (message : String) (originalS3Key : Option String)
deriving Repr, DecidableEq

/-- Trace of externally observable calls made during one handler run. -/
structure Trace where
  ledgerReads : Nat := 0
  ledgerWrites : List LedgerWrite := []
  fetches : Nat := 0
  probes : Nat := 0
  derivations : Nat := 0
  stores : Nat := 0
  events : List Event := []
  criticalLogs : List (String × String) := []
  mkdirCalls : Nat := 0
  rmCalls : Nat := 0
  dirCreated : Bool := false
  dirRemoved : Bool := false
deriving Repr, DecidableEq

/-- Behaviour of the external collaborators for one run.  `taskOutcomes`
gives the outcome of the i-th fan-out derivation task (indices
`0 .. resolutions.length - 1` are the transcodes in configuration order,
index `resolutions.length` is the thumbnail); `uploadOutcomes` likewise
for the upload fan-out.  `taskSched` / `uploadSched` pick which
rejection of a `Promise.all` group is the temporally first one. -/
structure Env where
  resolutions : List String
  lookup : Except String (Option (Option String))
  mkdirRes : Except String Unit
  procWrite : Except String Unit
  downloadRes : Except String Unit
  taskOutcomes : List (Except String Unit)
  taskSched : Nat
  uploadOutcomes : List (Except String Unit)
  uploadSched : Nat
  finalWrite : Except String Unit
  rmRes : Except String Unit
deriving Repr

/-- Error component of an outcome, if any. -/
def errOf : Except String Unit → Option String
  | .error e => some e
  | .ok _ => none

/-- `Promise.all` over a list of already-launched tasks: fulfils iff
every task fulfils, otherwise rejects with the reason of the task that
rejects first in time; the scheduler index chooses that reason among
the rejecting tasks. -/
def joinAll (outs : List (Except String Unit)) (sched : Nat) : Except String Unit :=
  match outs.filterMap errOf with
  | [] => Except.ok ()
  | e :: rest => Except.error ((e :: rest).getD (sched % (rest.length + 1)) e)

/-- The derivation fan-out group: one transcode per configured
resolution plus the thumbnail (handler lines 310-331), padded from the
environment. -/
def paddedTasks (env : Env) : List (Except String Unit) :=
  (List.range (env.resolutions.length + 1)).map
    (fun i => env.taskOutcomes.getD i (Except.ok ()))

/-- The upload fan-out group: one store per transcode result plus the
thumbnail (handler lines 357-393). -/
def paddedUploads (env : Env) : List (Except String Unit) :=
  (List.range (env.resolutions.length + 1)).map
    (fun i => env.uploadOutcomes.getD i (Except.ok ()))

/-- JS object property assignment on an insertion-ordered map. -/
def objInsert (m : List (String × String)) (k v : String) : List (String × String) :=
  if m.any (fun p => p.1 == k) then
    m.map (fun p => if p.1 == k then (k, v) else p)
  else m ++ [(k, v)]

/-- `processedFilesResult` as built after a successful derivation join
(handler lines 343-349): the thumbnail key is set first, then each
transcode result assigns its resolution label. -/
def buildProcessedFiles (videoId : String) (resolutions : List String) :
    List (String × String) :=
  resolutions.foldl (fun m res => objInsert m res (transcodeKey videoId res))
    [("thumbnail", thumbnailKey videoId)]

/-- The idempotency gate (handler lines 241-250):
`existingVideo.status && ['PROCESSING','READY','ERROR'].includes(status)`. -/
def isDupStatus : Option String → Bool
  | none => false
  | some s => (!(s == "")) && ((s == "PROCESSING") || (s == "READY") || (s == "ERROR"))

/-- Orchestrator-local mutable state threaded through the run:
`dbUpdateData` (status / processedFiles / processedAt fields),
`isSuccess`, `processingError`, `processedFilesResult`, plus the trace. -/
structure RunState where
  trace : Trace := {}
  dbStatus : Option String := none
  dbProcessedFiles : Option (List (String × String)) := none
  hasProcessedAt : Bool := false
  isSuccess : Bool := false
  processingError : Option String := none
  pfResult : List (String × String) := []
deriving Repr

/-- The `catch` block (handler lines 400-408): record the error, force
`dbUpdateData.status = 'ERROR'`, keep whatever `processedFilesResult`
holds, clear success. -/
def applyCatch (e : String) (st : RunState) : RunState :=
  { st with processingError := some e,
            dbStatus := some "ERROR",
            dbProcessedFiles := some st.pfResult,
            isSuccess := false }

/-- The `try` block of the handler (lines 216-399).  Returns
`(some b, st)` when the block executes `return b`, `(none, st)` when it
falls through (successfully or into the catch, whose effect is already
applied to `st`). -/
def runTry (vid : String) (srcKey : Option String) (env : Env) :
    Option Bool × RunState :=
  let st0 : RunState := { trace := { ledgerReads := 1 } }
  match env.lookup with
  | .error e => (none, applyCatch e st0)
  | .ok none =>
      -- record not found: publish a failure event, return false (lines 223-239)
      (some false,
        { st0 with trace := { st0.trace with
            events := [Event.failed vid "Video record not found in database" srcKey] } })
  | .ok (some recStatus) =>
    if isDupStatus recStatus then
      -- duplicate delivery: ack without doing anything (lines 241-250)
      (some true, st0)
    else
      let st1 : RunState := { st0 with trace := { st0.trace with mkdirCalls := 1 } }
      match env.mkdirRes with
      | .error e => (none, applyCatch e st1)
      | .ok _ =>
        let st2 : RunState := { st1 with trace := { st1.trace with dirCreated := true } }
        match env.procWrite with
        | .error e =>
            (none, applyCatch e { st2 with trace := { st2.trace with
              ledgerWrites := [{ status := "PROCESSING", processedFiles := none,
                                 hasProcessedAt := false, ok := false }] } })
        | .ok _ =>
          let st3 : RunState := { st2 with
            trace := { st2.trace with
              ledgerWrites := [{ status := "PROCESSING", processedFiles := none,
                                 hasProcessedAt := false, ok := true }] },
            dbStatus := some "PROCESSING" }
          let st4 : RunState := { st3 with trace := { st3.trace with fetches := 1 } }
          match env.downloadRes with
          | .error e => (none, applyCatch e st4)
          | .ok _ =>
            -- ffprobe metadata extraction (lines 271-302): its failure is
            -- caught locally and tolerated, so its outcome is unobservable
            -- beyond the probe call itself.
            let st5 : RunState := { st4 with trace := { st4.trace with probes := 1 } }
            let n := env.resolutions.length
            let st6 : RunState := { st5 with trace := { st5.trace with derivations := n + 1 } }
            match joinAll (paddedTasks env) env.taskSched with
            | .error e => (none, applyCatch e st6)
            | .ok _ =>
              let pf := buildProcessedFiles vid env.resolutions
              let st7 : RunState := { st6 with pfResult := pf, dbProcessedFiles := some pf }
              let st8 : RunState := { st7 with trace := { st7.trace with stores := n + 1 } }
              match joinAll (paddedUploads env) env.uploadSched with
              | .error e => (none, applyCatch e st8)
              | .ok _ =>
                (none, { st8 with dbStatus := some "READY", hasProcessedAt := true,
                                  isSuccess := true })

/-- The event-publication step of the `finally` block (lines 432-456):
a completion event on success, a failure event when a processing error
was recorded, nothing otherwise. -/
def publishPhase (vid : String) (srcKey : Option String) (st : RunState) : List Event :=
  if st.isSuccess && (st.dbStatus == some "READY") then
    [Event.completed vid (st.dbProcessedFiles.getD [])]
  else
    match st.processingError with
    | some e => [Event.failed vid e srcKey]
    | none => []

/-- The `finally` block (lines 409-473) followed by `return isSuccess`
(line 475).  The final ledger write is attempted when `dbUpdateData`
has a status; if it throws, the inner catch logs critically (the log
carries the video id and the error) and the publish step is skipped.
Afterwards the workspace directory is removed (errors swallowed), and
the try block's return value, if any, takes precedence over
`isSuccess`. -/
def runFinally (vid : String) (srcKey : Option String) (env : Env)
    (ret : Option Bool) (st : RunState) : Bool × Trace :=
  let afterUpdate : Trace :=
    match st.dbStatus with
    | none =>
        { st.trace with events := st.trace.events ++ publishPhase vid srcKey st }
    | some status =>
      match env.finalWrite with
      | .error e =>
          { st.trace with
            ledgerWrites := st.trace.ledgerWrites ++
              [{ status := status, processedFiles := st.dbProcessedFiles,
                 hasProcessedAt := st.hasProcessedAt, ok := false }],
            criticalLogs := st.trace.criticalLogs ++ [(vid, e)] }
      | .ok _ =>
          { st.trace with
            ledgerWrites := st.trace.ledgerWrites ++
              [{ status := status, processedFiles := st.dbProcessedFiles,
                 hasProcessedAt := st.hasProcessedAt, ok := true }],
            events := st.trace.events ++ publishPhase vid srcKey st }
  let afterRm : Trace :=
    { afterUpdate with
        rmCalls := afterUpdate.rmCalls + 1,
        dirRemoved := afterUpdate.dirRemoved ||
          (match env.rmRes with | .ok _ => true | .error _ => false) }
  (ret.getD st.isSuccess, afterRm)

/-- `handleVideoUploadEvent` (handler lines 182-476).  The payload
validation (line 195) checks the truthiness of `videoId`, `s3Key`,
`originalname`, `mimetype` and returns `false` before the
try/catch/finally when any is falsy. -/
def handleVideoUploadEvent (p : Payload) (env : Env) : Bool × Trace :=
  if truthy p.videoId && truthy p.s3Key && truthy p.originalname && truthy p.mimetype then
    let vid := p.videoId.getD ""
    let r := runTry vid p.s3Key env
    runFinally vid p.s3Key env r.1 r.2
  else
    (false, {})

/-- Whether the per-job workspace directory exists after the run,
assuming it did not exist before the run started. -/
def dirExistsAfter (t : Trace) : Bool := t.dirCreated && !t.dirRemoved

/-- Ledger status after a run, given the record's status before the run
and the writes attempted during it: each successful write overwrites
the status, a failed write leaves it unchanged. -/
def ledgerAfter (initial : Option String) (writes : List LedgerWrite) : Option String :=
  writes.foldl (fun st w => if w.ok then some w.status else st) initial

/-! ### The queue consumer (`src/consumers/VideoProcessingConsumer.ts`) -/

/-- A JSON property value as relevant to the consumer's structural
check: absent, a string, or present but not a string. -/
inductive JField where
  | absent
  | str (s : String)
  | nonStr
deriving Repr, DecidableEq

/-- One delivered message as `processMessage` sees it after
`JSON.parse(msg.content.toString())`: whether the parse succeeded,
whether the parsed value is `null`, and the shapes of the two checked
properties. -/
structure Delivered where
  parseOk : Bool
  isNull : Bool
  videoId : JField
  s3Key : JField
deriving Repr, DecidableEq

/-- The structural validation of `processMessage` (consumer lines
126-134): the body must parse, be non-null, and have string `videoId`
and `s3Key`; otherwise an error is thrown before the handler runs. -/
def structurallyValid (m : Delivered) : Bool :=
  m.parseOk && !m.isNull &&
    (match m.videoId with | .str _ => true | _ => false) &&
    (match m.s3Key with | .str _ => true | _ => false)

/-- The consumer's reply to the broker for one delivery.  `nack a b`
models `channel.nack(msg, a, b)` where `b` is the requeue flag;
`noReply` is the defensive path taken when the channel is gone. -/
inductive Disposition where
  | ack
  | nack (multiple requeue : Bool)
  | noReply
deriving Repr, DecidableEq

/-- `VideoProcessingConsumer.processMessage` (consumer lines 103-173)
for a non-null delivery: validate the payload, invoke the handler on a
valid one, and translate the outcome into ack / nack-without-requeue.
`handler` is the outcome of the `handleVideoUploadEvent` call (a verdict
or a thrown error).  The second component records whether the handler
was invoked. -/
def processMessage (channelPresent : Bool) (m : Delivered)
    (handler : Except String Bool) : Disposition × Bool :=
  if !channelPresent then (Disposition.noReply, false)
  else if !(structurallyValid m) then (Disposition.nack false false, false)
  else
    match handler with
    | .ok true => (Disposition.ack, true)
    | .ok false => (Disposition.nack false false, true)
    | .error _ => (Disposition.nack false false, true)

/-! ### Concrete fixtures used by the witnesses and counterexamples -/

/-- A fully-populated payload (all four handler-checked fields present). -/
def wPayload : Payload :=
  { videoId := some "vid-1", s3Key := some "uploads/a.mp4",
    originalFilename := some "a.mp4", mimeType := some "video/mp4",
    originalname := some "a.mp4", mimetype := some "video/mp4" }

/-- A payload shaped exactly like the consumer's `VideoUploadPayload`
interface: `originalFilename` and `mimeType` are present, the
`originalname` / `mimetype` properties the handler destructures are
absent. -/
def wInterfacePayload : Payload :=
  { videoId := some "vid-1", s3Key := some "uploads/a.mp4",
    originalFilename := some "a.mp4", mimeType := some "video/mp4",
    originalname := none, mimetype := none }

/-- An environment with two configured resolutions, a fresh ledger
record, and every external call succeeding. -/
def wEnv : Env :=
  { resolutions := ["720p", "480p"],
    lookup := Except.ok (some (some "UPLOADED")),
    mkdirRes := Except.ok (), procWrite := Except.ok (),
    downloadRes := Except.ok (),
    taskOutcomes := [Except.ok (), Except.ok (), Except.ok ()], taskSched := 0,
    uploadOutcomes := [Except.ok (), Except.ok (), Except.ok ()], uploadSched := 0,
    finalWrite := Except.ok (), rmRes := Except.ok () }

/-- `wEnv` with the record already in a terminal/in-flight status. -/
def wEnvDup : Env := { wEnv with lookup := Except.ok (some (some "READY")) }

/-- `wEnv` with no ledger record for the video id. -/
def wEnvAbsent : Env := { wEnv with lookup := Except.ok none }

/-- `wEnv` with the final ledger write throwing. -/
def wEnvFinalFail : Env := { wEnv with finalWrite := Except.error "db down" }

/-- `wEnv` with one configured resolution whose transcode task fails
while the thumbnail task succeeds. -/
def wEnvOneTaskFail : Env :=
  { wEnv with resolutions := ["720p"],
              taskOutcomes := [Except.error "transcode failed", Except.ok ()],
              uploadOutcomes := [Except.ok (), Except.ok ()] }

/-- `wEnv` with the download failing and the terminal `ERROR` ledger
write also failing. -/
def wEnvDownloadAndWriteFail : Env :=
  { wEnv with downloadRes := Except.error "download failed",
              finalWrite := Except.error "db down" }

/-- `wEnv` with only the download failing. -/
def wEnvDownloadFail : Env :=
  { wEnv with downloadRes := Except.error "download failed" }

/-- A structurally valid delivery for the consumer. -/
def wDelivered : Delivered :=
  { parseOk := true, isNull := false,
    videoId := JField.str "vid-1", s3Key := JField.str "uploads/a.mp4" }

/-! ### Helper lemmas about the fan-out join and the output mapping -/

theorem joinAll_of_all_ok (outs : List (Except String Unit)) (sched : Nat)
    (h : ∀ o ∈ outs, o = Except.ok ()) : joinAll outs sched = Except.ok () := by
  have hnil : outs.filterMap errOf = [] := by
    rw [List.filterMap_eq_nil_iff]
    intro o ho
    rw [h o ho]
    rfl
  unfold joinAll
  rw [hnil]

theorem paddedTasks_all_ok (env : Env)
    (h : ∀ o ∈ env.taskOutcomes, o = Except.ok ()) :
    ∀ o ∈ paddedTasks env, o = Except.ok () := by
  intro o ho
  unfold paddedTasks at ho
  simp only [List.mem_map, List.mem_range] at ho
  obtain ⟨i, -, hi⟩ := ho
  subst hi
  rcases hlt : env.taskOutcomes[i]? with - | v
  · simp [List.getD, hlt]
  · have hv : v ∈ env.taskOutcomes := List.getElem?_mem hlt
    simp [List.getD, hlt, h v hv]

theorem paddedUploads_all_ok (env : Env)
    (h : ∀ o ∈ env.uploadOutcomes, o = Except.ok ()) :
    ∀ o ∈ paddedUploads env, o = Except.ok () := by
  intro o ho
  unfold paddedUploads at ho
  simp only [List.mem_map, List.mem_range] at ho
  obtain ⟨i, -, hi⟩ := ho
  subst hi
  rcases hlt : env.uploadOutcomes[i]? with - | v
  · simp [List.getD, hlt]
  · have hv : v ∈ env.uploadOutcomes := List.getElem?_mem hlt
    simp [List.getD, hlt, h v hv]

theorem joinAll_single_error (l1 l2 : List (Except String Unit)) (e : String) (sched : Nat)
    (h1 : ∀ o ∈ l1, o = Except.ok ()) (h2 : ∀ o ∈ l2, o = Except.ok ()) :
    joinAll (l1 ++ Except.error e :: l2) sched = Except.error e := by
  have hn1 : l1.filterMap errOf = [] := by
    rw [List.filterMap_eq_nil_iff]
    intro o ho
    rw [h1 o ho]
    rfl
  have hn2 : l2.filterMap errOf = [] := by
    rw [List.filterMap_eq_nil_iff]
    intro o ho
    rw [h2 o ho]
    rfl
  have hall : (l1 ++ Except.error e :: l2).filterMap errOf = [e] := by
    rw [List.filterMap_append, hn1, List.nil_append, List.filterMap_cons, hn2]
    rfl
  unfold joinAll
  rw [hall]
  simp [Nat.mod_one]

theorem objInsert_fresh (m : List (String × String)) (k v : String)
    (h : ∀ p ∈ m, p.1 ≠ k) : objInsert m k v = m ++ [(k, v)] := by
  unfold objInsert
  have hany : m.any (fun p => p.1 == k) = false := by
    rw [List.any_eq_false]
    intro p hp
    simpa using h p hp
  rw [hany]
  simp

theorem foldl_objInsert_length (vid : String) (ress : List String) :
    ∀ m : List (String × String), ress.Nodup →
      (∀ r ∈ ress, ∀ p ∈ m, p.1 ≠ r) →
      (ress.foldl (fun acc res => objInsert acc res (transcodeKey vid res)) m).length
        = m.length + ress.length := by
  induction ress with
  | nil => intro m _ _; simp
  | cons r rest ih =>
    intro m hnd hdisj
    rw [List.foldl_cons]
    have hfresh : ∀ p ∈ m, p.1 ≠ r := fun p hp => hdisj r (by simp) p hp
    rw [objInsert_fresh m r (transcodeKey vid r) hfresh]
    have hnd' : rest.Nodup := (List.nodup_cons.mp hnd).2
    have hne : r ∉ rest := (List.nodup_cons.mp hnd).1
    have hdisj' : ∀ rr ∈ rest, ∀ p ∈ m ++ [(r, transcodeKey vid r)], p.1 ≠ rr := by
      intro rr hrr p hp
      rcases List.mem_append.mp hp with hm | hone
      · exact hdisj rr (by simp [hrr]) p hm
      · have hp2 : p = (r, transcodeKey vid r) := by simpa using hone
        subst hp2
        intro hcon
        have hcon2 : r = rr := hcon
        exact hne (by rw [hcon2]; exact hrr)
    rw [ih (m ++ [(r, transcodeKey vid r)]) hnd' hdisj']
    simp
    omega

theorem buildProcessedFiles_length (vid : String) (ress : List String)
    (hnd : ress.Nodup) (hth : "thumbnail" ∉ ress) :
    (buildProcessedFiles vid ress).length = ress.length + 1 := by
  unfold buildProcessedFiles
  rw [foldl_objInsert_length vid ress [("thumbnail", thumbnailKey vid)] hnd]
  · simp [Nat.add_comm]
  · intro r hr p hp
    have hp2 : p = ("thumbnail", thumbnailKey vid) := by simpa using hp
    subst hp2
    intro hcon
    have hcon2 : "thumbnail" = r := hcon
    exact hth (by rw [hcon2]; exact hr)

/-! ### Structural lemmas about the run -/

theorem runFinally_fst (vid : String) (srcKey : Option String) (env : Env)
    (ret : Option Bool) (st : RunState) :
    (runFinally vid srcKey env ret st).1 = ret.getD st.isSuccess := rfl

theorem runFinally_rmCalls (vid : String) (srcKey : Option String) (env : Env)
    (ret : Option Bool) (st : RunState) :
    (runFinally vid srcKey env ret st).2.rmCalls = st.trace.rmCalls + 1 := by
  unfold runFinally
  rcases st.dbStatus with - | status
  · rfl
  · rcases env.finalWrite with e | u
    · rfl
    · rfl

theorem runTry_rmCalls (vid : String) (srcKey : Option String) (env : Env) :
    (runTry vid srcKey env).2.trace.rmCalls = 0 := by
  unfold runTry
  rcases env.lookup with e | rec
  · rfl
  · rcases rec with - | recStatus
    · rfl
    · by_cases hdup : isDupStatus recStatus = true
      · simp only [hdup]
        rfl
      · simp only [Bool.not_eq_true] at hdup
        simp only [hdup]
        rcases env.mkdirRes with e | u
        · rfl
        · rcases env.procWrite with e | u
          · rfl
          · rcases env.downloadRes with e | u
            · rfl
            · rcases joinAll (paddedTasks env) env.taskSched with e | u
              · rfl
              · rcases joinAll (paddedUploads env) env.uploadSched with e | u
                · rfl
                · rfl

theorem runTry_rm_independent (vid : String) (srcKey : Option String) (env : Env)
    (r : Except String Unit) :
    runTry vid srcKey { env with rmRes := r } = runTry vid srcKey env := rfl

/-! ### Claim theorems -/

/-- Claim C1: when the ledger record for the video id exists and its
status is already PROCESSING, READY, or ERROR, the handler returns true,
performs no storage fetch or store, no transcoding-engine call, no
ledger write, and publishes no event. -/
theorem c1_duplicate_delivery_is_noop (p : Payload) (env : Env) (s : String)
    (hv1 : truthy p.videoId = true) (hv2 : truthy p.s3Key = true)
    (hv3 : truthy p.originalname = true) (hv4 : truthy p.mimetype = true)
    (hrec : env.lookup = Except.ok (some (some s)))
    (hdup : s = "PROCESSING" ∨ s = "READY" ∨ s = "ERROR") :
    (handleVideoUploadEvent p env).1 = true ∧
    (handleVideoUploadEvent p env).2.fetches = 0 ∧
    (handleVideoUploadEvent p env).2.stores = 0 ∧
    (handleVideoUploadEvent p env).2.derivations = 0 ∧
    (handleVideoUploadEvent p env).2.ledgerWrites = [] ∧
    (handleVideoUploadEvent p env).2.events = [] := by
  have hgate : isDupStatus (some s) = true := by
    rcases hdup with h | h | h <;> rw [h] <;> rfl
  simp [handleVideoUploadEvent, runTry, runFinally, publishPhase,
        hv1, hv2, hv3, hv4, hrec, hgate]

/-- Witness for C1: a concrete redelivery of an already-READY job. -/
theorem c1_witness :
    (truthy wPayload.videoId = true ∧ truthy wPayload.s3Key = true ∧
     truthy wPayload.originalname = true ∧ truthy wPayload.mimetype = true) ∧
    wEnvDup.lookup = Except.ok (some (some "READY")) ∧
    ((handleVideoUploadEvent wPayload wEnvDup).1 = true ∧
     (handleVideoUploadEvent wPayload wEnvDup).2.fetches = 0 ∧
     (handleVideoUploadEvent wPayload wEnvDup).2.stores = 0 ∧
     (handleVideoUploadEvent wPayload wEnvDup).2.derivations = 0 ∧
     (handleVideoUploadEvent wPayload wEnvDup).2.ledgerWrites = [] ∧
     (handleVideoUploadEvent wPayload wEnvDup).2.events = []) :=
  ⟨⟨by decide, by decide, by decide, by decide⟩, rfl,
   c1_duplicate_delivery_is_noop wPayload wEnvDup "READY"
     (by decide) (by decide) (by decide) (by decide) rfl (Or.inr (Or.inl rfl))⟩

/-- Claim C6: when the video id has no ledger record, the handler
publishes exactly one failure event, returns false, and performs no
storage call, no engine call, and no ledger write. -/
theorem c6_missing_record_dead_letters (p : Payload) (env : Env)
    (hv1 : truthy p.videoId = true) (hv2 : truthy p.s3Key = true)
    (hv3 : truthy p.originalname = true) (hv4 : truthy p.mimetype = true)
    (hrec : env.lookup = Except.ok none) :
    (handleVideoUploadEvent p env).1 = false ∧
    (handleVideoUploadEvent p env).2.events =
      [Event.failed (p.videoId.getD "") "Video record not found in database" p.s3Key] ∧
    (handleVideoUploadEvent p env).2.fetches = 0 ∧
    (handleVideoUploadEvent p env).2.stores = 0 ∧
    (handleVideoUploadEvent p env).2.derivations = 0 ∧
    (handleVideoUploadEvent p env).2.ledgerWrites = [] := by
  simp [handleVideoUploadEvent, runTry, runFinally, publishPhase,
        hv1, hv2, hv3, hv4, hrec]

/-- Witness for C6: a concrete run against an absent ledger record. -/
theorem c6_witness :
    (truthy wPayload.videoId = true ∧ truthy wPayload.s3Key = true ∧
     truthy wPayload.originalname = true ∧ truthy wPayload.mimetype = true) ∧
    wEnvAbsent.lookup = Except.ok none ∧
    ((handleVideoUploadEvent wPayload wEnvAbsent).1 = false ∧
     (handleVideoUploadEvent wPayload wEnvAbsent).2.events =
       [Event.failed "vid-1" "Video record not found in database" (some "uploads/a.mp4")] ∧
     (handleVideoUploadEvent wPayload wEnvAbsent).2.fetches = 0 ∧
     (handleVideoUploadEvent wPayload wEnvAbsent).2.stores = 0 ∧
     (handleVideoUploadEvent wPayload wEnvAbsent).2.derivations = 0 ∧
     (handleVideoUploadEvent wPayload wEnvAbsent).2.ledgerWrites = []) :=
  ⟨⟨by decide, by decide, by decide, by decide⟩, rfl,
   c6_missing_record_dead_letters wPayload wEnvAbsent
     (by decide) (by decide) (by decide) (by decide) rfl⟩

/-- Claim C3: when all pipeline work succeeds but the final READY
ledger write throws, the handler still returns true, publishes no
completion event (no event at all), and produces a critical log entry
carrying the job id and the write error. -/
theorem c3_final_write_failure_still_acks (p : Payload) (env : Env)
    (st0 : Option String) (e : String)
    (hv1 : truthy p.videoId = true) (hv2 : truthy p.s3Key = true)
    (hv3 : truthy p.originalname = true) (hv4 : truthy p.mimetype = true)
    (hrec : env.lookup = Except.ok (some st0)) (hfresh : isDupStatus st0 = false)
    (hmk : env.mkdirRes = Except.ok ()) (hpw : env.procWrite = Except.ok ())
    (hdl : env.downloadRes = Except.ok ())
    (htasks : ∀ o ∈ env.taskOutcomes, o = Except.ok ())
    (hups : ∀ o ∈ env.uploadOutcomes, o = Except.ok ())
    (hfw : env.finalWrite = Except.error e) :
    (handleVideoUploadEvent p env).1 = true ∧
    (handleVideoUploadEvent p env).2.events = [] ∧
    (handleVideoUploadEvent p env).2.criticalLogs = [(p.videoId.getD "", e)] := by
  have hj1 : joinAll (paddedTasks env) env.taskSched = Except.ok () :=
    joinAll_of_all_ok _ _ (paddedTasks_all_ok env htasks)
  have hj2 : joinAll (paddedUploads env) env.uploadSched = Except.ok () :=
    joinAll_of_all_ok _ _ (paddedUploads_all_ok env hups)
  simp [handleVideoUploadEvent, runTry, runFinally, publishPhase,
        hv1, hv2, hv3, hv4, hrec, hfresh, hmk, hpw, hdl, hj1, hj2, hfw]

/-- Witness for C3: concrete full-success run whose final write throws. -/
theorem c3_witness :
    (truthy wPayload.videoId = true ∧ truthy wPayload.s3Key = true ∧
     truthy wPayload.originalname = true ∧ truthy wPayload.mimetype = true) ∧
    wEnvFinalFail.finalWrite = Except.error "db down" ∧
    ((handleVideoUploadEvent wPayload wEnvFinalFail).1 = true ∧
     (handleVideoUploadEvent wPayload wEnvFinalFail).2.events = [] ∧
     (handleVideoUploadEvent wPayload wEnvFinalFail).2.criticalLogs =
       [("vid-1", "db down")]) :=
  ⟨⟨by decide, by decide, by decide, by decide⟩, rfl,
   c3_final_write_failure_still_acks wPayload wEnvFinalFail (some "UPLOADED") "db down"
     (by decide) (by decide) (by decide) (by decide) rfl (by decide) rfl rfl rfl
     (by intro o ho; simp [wEnvFinalFail, wEnv] at ho; simp [ho])
     (by intro o ho; simp [wEnvFinalFail, wEnv] at ho; simp [ho])
     rfl⟩

/-- Claim C10: any payload whose `originalname` or `mimetype` property
is absent or falsy — in particular one following the consumer's
`VideoUploadPayload` interface, which names these fields
`originalFilename` and `mimeType` — makes the handler return false
immediately, with an empty trace: no ledger read or write, no storage
or engine call, and no published event. -/
theorem c10_interface_field_mismatch_rejects (p : Payload) (env : Env)
    (h : truthy p.originalname = false ∨ truthy p.mimetype = false) :
    handleVideoUploadEvent p env = (false, {}) := by
  unfold handleVideoUploadEvent
  rcases h with h | h <;> rw [h] <;> simp

/-- Witness for C10: the interface-shaped payload (with
`originalFilename` and `mimeType` set) is rejected with an empty trace
even when every external call would succeed. -/
theorem c10_witness :
    truthy wInterfacePayload.originalname = false ∧
    handleVideoUploadEvent wInterfacePayload wEnv = (false, {}) :=
  ⟨by decide,
   c10_interface_field_mismatch_rejects wInterfacePayload wEnv (Or.inl (by decide))⟩

/-- Claim C2: a fresh job with N configured resolutions on which every
external call succeeds performs exactly two ledger status writes
(PROCESSING then READY, both succeeding), one storage fetch, N+1
derivation calls, N+1 stores, publishes exactly one completion event
whose output-key mapping has N+1 entries, returns true, and leaves no
workspace directory behind. -/
theorem c2_full_success_pipeline (p : Payload) (env : Env) (st0 : Option String)
    (hv1 : truthy p.videoId = true) (hv2 : truthy p.s3Key = true)
    (hv3 : truthy p.originalname = true) (hv4 : truthy p.mimetype = true)
    (hrec : env.lookup = Except.ok (some st0)) (hfresh : isDupStatus st0 = false)
    (hmk : env.mkdirRes = Except.ok ()) (hpw : env.procWrite = Except.ok ())
    (hdl : env.downloadRes = Except.ok ())
    (htasks : ∀ o ∈ env.taskOutcomes, o = Except.ok ())
    (hups : ∀ o ∈ env.uploadOutcomes, o = Except.ok ())
    (hfw : env.finalWrite = Except.ok ()) (hrm : env.rmRes = Except.ok ())
    (hnd : env.resolutions.Nodup) (hth : "thumbnail" ∉ env.resolutions) :
    (handleVideoUploadEvent p env).1 = true ∧
    (handleVideoUploadEvent p env).2.ledgerWrites.map LedgerWrite.status =
      ["PROCESSING", "READY"] ∧
    (∀ w ∈ (handleVideoUploadEvent p env).2.ledgerWrites, w.ok = true) ∧
    (handleVideoUploadEvent p env).2.fetches = 1 ∧
    (handleVideoUploadEvent p env).2.derivations = env.resolutions.length + 1 ∧
    (handleVideoUploadEvent p env).2.stores = env.resolutions.length + 1 ∧
    (handleVideoUploadEvent p env).2.events =
      [Event.completed (p.videoId.getD "")
        (buildProcessedFiles (p.videoId.getD "") env.resolutions)] ∧
    (buildProcessedFiles (p.videoId.getD "") env.resolutions).length =
      env.resolutions.length + 1 ∧
    dirExistsAfter (handleVideoUploadEvent p env).2 = false := by
  have hj1 : joinAll (paddedTasks env) env.taskSched = Except.ok () :=
    joinAll_of_all_ok _ _ (paddedTasks_all_ok env htasks)
  have hj2 : joinAll (paddedUploads env) env.uploadSched = Except.ok () :=
    joinAll_of_all_ok _ _ (paddedUploads_all_ok env hups)
  have hlen := buildProcessedFiles_length (p.videoId.getD "") env.resolutions hnd hth
  simp [handleVideoUploadEvent, runTry, runFinally, publishPhase, dirExistsAfter,
        hv1, hv2, hv3, hv4, hrec, hfresh, hmk, hpw, hdl, hj1, hj2, hfw, hrm, hlen]

/-- Witness for C2: concrete fresh job with two resolutions, all calls
succeeding. -/
theorem c2_witness :
    (truthy wPayload.videoId = true ∧ wEnv.lookup = Except.ok (some (some "UPLOADED")) ∧
     isDupStatus (some "UPLOADED") = false ∧ wEnv.resolutions.Nodup ∧
     "thumbnail" ∉ wEnv.resolutions) ∧
    ((handleVideoUploadEvent wPayload wEnv).1 = true ∧
     (handleVideoUploadEvent wPayload wEnv).2.ledgerWrites.map LedgerWrite.status =
       ["PROCESSING", "READY"] ∧
     (∀ w ∈ (handleVideoUploadEvent wPayload wEnv).2.ledgerWrites, w.ok = true) ∧
     (handleVideoUploadEvent wPayload wEnv).2.fetches = 1 ∧
     (handleVideoUploadEvent wPayload wEnv).2.derivations = wEnv.resolutions.length + 1 ∧
     (handleVideoUploadEvent wPayload wEnv).2.stores = wEnv.resolutions.length + 1 ∧
     (handleVideoUploadEvent wPayload wEnv).2.events =
       [Event.completed "vid-1" (buildProcessedFiles "vid-1" wEnv.resolutions)] ∧
     (buildProcessedFiles "vid-1" wEnv.resolutions).length = wEnv.resolutions.length + 1 ∧
     dirExistsAfter (handleVideoUploadEvent wPayload wEnv).2 = false) :=
  ⟨⟨by decide, rfl, by decide, by decide, by decide⟩,
   c2_full_success_pipeline wPayload wEnv (some "UPLOADED")
     (by decide) (by decide) (by decide) (by decide) rfl (by decide) rfl rfl rfl
     (by intro o ho; simp [wEnv] at ho; simp [ho])
     (by intro o ho; simp [wEnv] at ho; simp [ho])
     rfl rfl (by decide) (by decide)⟩

/-- Claim C5: when exactly one derivation task fails and the others
succeed, no store call occurs, the ledger ends at ERROR, the handler
returns false, and the published failure event carries the failed
task's error message. -/
theorem c5_single_derivation_failure (p : Payload) (env : Env) (st0 : Option String)
    (e : String) (l1 l2 : List (Except String Unit))
    (hv1 : truthy p.videoId = true) (hv2 : truthy p.s3Key = true)
    (hv3 : truthy p.originalname = true) (hv4 : truthy p.mimetype = true)
    (hrec : env.lookup = Except.ok (some st0)) (hfresh : isDupStatus st0 = false)
    (hmk : env.mkdirRes = Except.ok ()) (hpw : env.procWrite = Except.ok ())
    (hdl : env.downloadRes = Except.ok ())
    (hsplit : paddedTasks env = l1 ++ Except.error e :: l2)
    (hl1 : ∀ o ∈ l1, o = Except.ok ()) (hl2 : ∀ o ∈ l2, o = Except.ok ())
    (hfw : env.finalWrite = Except.ok ()) :
    (handleVideoUploadEvent p env).2.stores = 0 ∧
    (handleVideoUploadEvent p env).1 = false ∧
    ledgerAfter st0 (handleVideoUploadEvent p env).2.ledgerWrites = some "ERROR" ∧
    (handleVideoUploadEvent p env).2.events =
      [Event.failed (p.videoId.getD "") e p.s3Key] := by
  have hj1 : joinAll (paddedTasks env) env.taskSched = Except.error e := by
    rw [hsplit]
    exact joinAll_single_error l1 l2 e env.taskSched hl1 hl2
  simp [handleVideoUploadEvent, runTry, runFinally, publishPhase, applyCatch,
        ledgerAfter, hv1, hv2, hv3, hv4, hrec, hfresh, hmk, hpw, hdl, hj1, hfw]

/-- Witness for C5: one configured resolution whose transcode fails
while the thumbnail succeeds. -/
theorem c5_witness :
    (paddedTasks wEnvOneTaskFail =
       [] ++ Except.error "transcode failed" :: [Except.ok ()]) ∧
    ((handleVideoUploadEvent wPayload wEnvOneTaskFail).2.stores = 0 ∧
     (handleVideoUploadEvent wPayload wEnvOneTaskFail).1 = false ∧
     ledgerAfter (some "UPLOADED")
       (handleVideoUploadEvent wPayload wEnvOneTaskFail).2.ledgerWrites = some "ERROR" ∧
     (handleVideoUploadEvent wPayload wEnvOneTaskFail).2.events =
       [Event.failed "vid-1" "transcode failed" (some "uploads/a.mp4")]) :=
  ⟨rfl,
   c5_single_derivation_failure wPayload wEnvOneTaskFail (some "UPLOADED")
     "transcode failed" [] [Except.ok ()]
     (by decide) (by decide) (by decide) (by decide) rfl (by decide) rfl rfl rfl
     rfl (by simp) (by intro o ho; simp at ho; simp [ho]) rfl⟩

/-- Counterexample for C4: a run in which the thumbnail task succeeds
while the single transcode task fails.  The claim says the orchestrator
records which variants succeeded for partial-failure reporting; in fact
the terminal ERROR ledger write carries an empty processed-files
mapping — the thumbnail's success is not recorded anywhere. -/
theorem c4_counterexample :
    wEnvOneTaskFail.taskOutcomes.getD 1 (Except.ok ()) = Except.ok () ∧
    (handleVideoUploadEvent wPayload wEnvOneTaskFail).2.ledgerWrites.map
      LedgerWrite.processedFiles = [none, some []] ∧
    (handleVideoUploadEvent wPayload wEnvOneTaskFail).2.events =
      [Event.failed "vid-1" "transcode failed" (some "uploads/a.mp4")] :=
  ⟨rfl, rfl, rfl⟩

/-- Claim C4 amended: the derivation fan-out is joined with an
all-or-nothing `Promise.all`: on any task failure the join surfaces the
first rejection without collecting the remaining errors, sibling
successes are not recorded (the terminal ERROR write carries an empty
processed-files mapping), and the published failure event carries only
that first error's message. -/
theorem c4_join_is_all_or_nothing (p : Payload) (env : Env) (st0 : Option String)
    (e : String)
    (hv1 : truthy p.videoId = true) (hv2 : truthy p.s3Key = true)
    (hv3 : truthy p.originalname = true) (hv4 : truthy p.mimetype = true)
    (hrec : env.lookup = Except.ok (some st0)) (hfresh : isDupStatus st0 = false)
    (hmk : env.mkdirRes = Except.ok ()) (hpw : env.procWrite = Except.ok ())
    (hdl : env.downloadRes = Except.ok ())
    (hjoin : joinAll (paddedTasks env) env.taskSched = Except.error e)
    (hfw : env.finalWrite = Except.ok ()) :
    (handleVideoUploadEvent p env).1 = false ∧
    (handleVideoUploadEvent p env).2.ledgerWrites.map LedgerWrite.status =
      ["PROCESSING", "ERROR"] ∧
    (handleVideoUploadEvent p env).2.ledgerWrites.map LedgerWrite.processedFiles =
      [none, some []] ∧
    (handleVideoUploadEvent p env).2.events =
      [Event.failed (p.videoId.getD "") e p.s3Key] := by
  simp [handleVideoUploadEvent, runTry, runFinally, publishPhase, applyCatch,
        hv1, hv2, hv3, hv4, hrec, hfresh, hmk, hpw, hdl, hjoin, hfw]

/-- Witness for the amended C4 at the concrete one-failure run. -/
theorem c4_witness :
    (joinAll (paddedTasks wEnvOneTaskFail) wEnvOneTaskFail.taskSched =
       Except.error "transcode failed") ∧
    ((handleVideoUploadEvent wPayload wEnvOneTaskFail).1 = false ∧
     (handleVideoUploadEvent wPayload wEnvOneTaskFail).2.ledgerWrites.map
       LedgerWrite.status = ["PROCESSING", "ERROR"] ∧
     (handleVideoUploadEvent wPayload wEnvOneTaskFail).2.ledgerWrites.map
       LedgerWrite.processedFiles = [none, some []] ∧
     (handleVideoUploadEvent wPayload wEnvOneTaskFail).2.events =
       [Event.failed "vid-1" "transcode failed" (some "uploads/a.mp4")]) :=
  ⟨rfl,
   c4_join_is_all_or_nothing wPayload wEnvOneTaskFail (some "UPLOADED")
     "transcode failed"
     (by decide) (by decide) (by decide) (by decide) rfl (by decide) rfl rfl rfl
     rfl rfl⟩

/-- Counterexample for C7: a run whose download fails and whose
terminal ERROR ledger write also fails.  The claim says a failure event
is still published; in fact the thrown ledger write skips the publish
step, so no event at all is published (only the critical log and the
false verdict remain). -/
theorem c7_counterexample :
    wEnvDownloadAndWriteFail.downloadRes = Except.error "download failed" ∧
    wEnvDownloadAndWriteFail.finalWrite = Except.error "db down" ∧
    (handleVideoUploadEvent wPayload wEnvDownloadAndWriteFail).1 = false ∧
    (handleVideoUploadEvent wPayload wEnvDownloadAndWriteFail).2.events = [] ∧
    (handleVideoUploadEvent wPayload wEnvDownloadAndWriteFail).2.criticalLogs =
      [("vid-1", "db down")] :=
  ⟨rfl, rfl, rfl, rfl, rfl⟩

/-- Claim C7 amended: on a mid-pipeline failure (download, derivation,
or upload error) the handler attempts the terminal ERROR ledger write
and returns false.  When that write succeeds, a failure event carrying
the error message and the original source key is published; when the
write itself throws, the condition is logged critically (with the job
id and the write error) and no failure event is published. -/
theorem c7_midpipeline_error_finalization (p : Payload) (env : Env)
    (st0 : Option String) (e : String)
    (hv1 : truthy p.videoId = true) (hv2 : truthy p.s3Key = true)
    (hv3 : truthy p.originalname = true) (hv4 : truthy p.mimetype = true)
    (hrec : env.lookup = Except.ok (some st0)) (hfresh : isDupStatus st0 = false)
    (hmk : env.mkdirRes = Except.ok ()) (hpw : env.procWrite = Except.ok ())
    (hmid : env.downloadRes = Except.error e ∨
      (env.downloadRes = Except.ok () ∧
        joinAll (paddedTasks env) env.taskSched = Except.error e) ∨
      (env.downloadRes = Except.ok () ∧
        joinAll (paddedTasks env) env.taskSched = Except.ok () ∧
        joinAll (paddedUploads env) env.uploadSched = Except.error e)) :
    (handleVideoUploadEvent p env).1 = false ∧
    (handleVideoUploadEvent p env).2.ledgerWrites.map LedgerWrite.status =
      ["PROCESSING", "ERROR"] ∧
    (env.finalWrite = Except.ok () →
      (handleVideoUploadEvent p env).2.events =
        [Event.failed (p.videoId.getD "") e p.s3Key]) ∧
    (∀ e2, env.finalWrite = Except.error e2 →
      (handleVideoUploadEvent p env).2.events = [] ∧
      (handleVideoUploadEvent p env).2.criticalLogs = [(p.videoId.getD "", e2)]) := by
  rcases hmid with hdl | ⟨hdl, hj⟩ | ⟨hdl, hj1, hj2⟩
  · rcases hfwc : env.finalWrite with e2 | u <;>
      simp [handleVideoUploadEvent, runTry, runFinally, publishPhase, applyCatch,
            hv1, hv2, hv3, hv4, hrec, hfresh, hmk, hpw, hdl, hfwc]
  · rcases hfwc : env.finalWrite with e2 | u <;>
      simp [handleVideoUploadEvent, runTry, runFinally, publishPhase, applyCatch,
            hv1, hv2, hv3, hv4, hrec, hfresh, hmk, hpw, hdl, hj, hfwc]
  · rcases hfwc : env.finalWrite with e2 | u <;>
      simp [handleVideoUploadEvent, runTry, runFinally, publishPhase, applyCatch,
            hv1, hv2, hv3, hv4, hrec, hfresh, hmk, hpw, hdl, hj1, hj2, hfwc]

/-- Witness for the amended C7: a concrete download failure whose
terminal ERROR write succeeds. -/
theorem c7_witness :
    wEnvDownloadFail.downloadRes = Except.error "download failed" ∧
    ((handleVideoUploadEvent wPayload wEnvDownloadFail).1 = false ∧
     (handleVideoUploadEvent wPayload wEnvDownloadFail).2.ledgerWrites.map
       LedgerWrite.status = ["PROCESSING", "ERROR"] ∧
     (wEnvDownloadFail.finalWrite = Except.ok () →
       (handleVideoUploadEvent wPayload wEnvDownloadFail).2.events =
         [Event.failed "vid-1" "download failed" (some "uploads/a.mp4")]) ∧
     (∀ e2, wEnvDownloadFail.finalWrite = Except.error e2 →
       (handleVideoUploadEvent wPayload wEnvDownloadFail).2.events = [] ∧
       (handleVideoUploadEvent wPayload wEnvDownloadFail).2.criticalLogs =
         [("vid-1", e2)])) :=
  ⟨rfl,
   c7_midpipeline_error_finalization wPayload wEnvDownloadFail (some "UPLOADED")
     "download failed"
     (by decide) (by decide) (by decide) (by decide) rfl (by decide) rfl rfl
     (Or.inl rfl)⟩

/-- Counterexample for C9: the invalid-payload early return (handler
line 200) happens before the try/finally, so that exit path performs no
workspace removal at all, contradicting "on every exit path ... the
workspace directory is removed". -/
theorem c9_counterexample :
    (handleVideoUploadEvent wInterfacePayload wEnv).1 = false ∧
    (handleVideoUploadEvent wInterfacePayload wEnv).2.rmCalls = 0 :=
  ⟨rfl, rfl⟩

/-- Claim C9 amended: on every exit path that passes the initial
payload-field validation (success, any failure, or the early returns
inside the try block), the workspace removal is invoked exactly once
(recursive, force, tolerating an already-missing directory), and a
removal failure does not change the handler's verdict; the
invalid-payload early return performs no removal. -/
theorem c9_cleanup_on_validated_paths (p : Payload) (env : Env)
    (r : Except String Unit)
    (hv1 : truthy p.videoId = true) (hv2 : truthy p.s3Key = true)
    (hv3 : truthy p.originalname = true) (hv4 : truthy p.mimetype = true) :
    (handleVideoUploadEvent p env).2.rmCalls = 1 ∧
    (handleVideoUploadEvent p { env with rmRes := r }).1 =
      (handleVideoUploadEvent p env).1 := by
  constructor
  · simp [handleVideoUploadEvent, hv1, hv2, hv3, hv4, runFinally_rmCalls, runTry_rmCalls]
  · simp only [handleVideoUploadEvent, hv1, hv2, hv3, hv4, Bool.and_self, if_true,
               runTry_rm_independent, runFinally_fst]

/-- Witness for the amended C9: concrete valid run with an rm failure
injected. -/
theorem c9_witness :
    truthy wPayload.videoId = true ∧
    ((handleVideoUploadEvent wPayload wEnv).2.rmCalls = 1 ∧
     (handleVideoUploadEvent wPayload
        { wEnv with rmRes := Except.error "rm failed" }).1 =
       (handleVideoUploadEvent wPayload wEnv).1) :=
  ⟨by decide,
   c9_cleanup_on_validated_paths wPayload wEnv (Except.error "rm failed")
     (by decide) (by decide) (by decide) (by decide)⟩

/-- Claim C8: with the channel available, the consumer acks a delivery
iff the payload is structurally valid and the handler returned true; an
invalid payload is nacked without requeue without invoking the handler;
a false verdict or an exception escaping the handler is nacked without
requeue. -/
theorem c8_consumer_ack_contract (ch : Bool) (m : Delivered) (h : Except String Bool)
    (hch : ch = true) :
    ((processMessage ch m h).1 = Disposition.ack ↔
      (structurallyValid m = true ∧ h = Except.ok true)) ∧
    (structurallyValid m = false →
      processMessage ch m h = (Disposition.nack false false, false)) ∧
    (structurallyValid m = true → h = Except.ok false →
      processMessage ch m h = (Disposition.nack false false, true)) ∧
    (∀ e, structurallyValid m = true → h = Except.error e →
      processMessage ch m h = (Disposition.nack false false, true)) := by
  subst hch
  rcases h with e | b
  · cases hsv : structurallyValid m <;> simp [processMessage, hsv]
  · cases b <;> cases hsv : structurallyValid m <;> simp [processMessage, hsv]

/-- Witness for C8: a structurally valid delivery with a true handler
verdict is acked. -/
theorem c8_witness :
    (true = true) ∧
    (((processMessage true wDelivered (Except.ok true)).1 = Disposition.ack ↔
       (structurallyValid wDelivered = true ∧
        Except.ok true = (Except.ok true : Except String Bool))) ∧
     (structurallyValid wDelivered = false →
       processMessage true wDelivered (Except.ok true) =
         (Disposition.nack false false, false)) ∧
     (structurallyValid wDelivered = true →
       (Except.ok true : Except String Bool) = Except.ok false →
       processMessage true wDelivered (Except.ok true) =
         (Disposition.nack false false, true)) ∧
     (∀ e, structurallyValid wDelivered = true →
       (Except.ok true : Except String Bool) = Except.error e →
       processMessage true wDelivered (Except.ok true) =
         (Disposition.nack false false, true))) :=
  ⟨rfl, c8_consumer_ack_contract true wDelivered (Except.ok true) rfl⟩

end VideoProcessing
